import Mathlib

/-!
Verification of the BrainFin investment-simulation engine.

This file gives a shallow embedding, over exact rationals (`ℚ`), of the four
calculators in `src/calculators/` (`bond_deposit.py`, `real_estate.py`,
`etf_regular.py`, `stock.py`) together with the dispatcher
`calculate_investment` of `src/routes.py` and the `InvestmentType`
enumeration of the Pydantic model module, and proves or refutes the frozen
claims about them.

Modelling conventions:
* Python floats are modelled as exact rationals; display rounding
  (Python's banker's `round`) is modelled by `roundHalfEven`.
* Metrics that Python computes with a fractional exponent
  (`pow(x, 1/years)`) are real-valued; they are kept in clearly named
  separate definitions over `ℝ` (`pyAnnualized`, `houseAnnualReturn`) so
  that the rational core stays executable.  A result that Python's float
  arithmetic turns into a non-finite value (`nan`/`inf` from `0/0` or a
  fractional power of a negative base, or a raised `ZeroDivisionError`)
  is modelled as `none : Option ℝ`.
* The Monte-Carlo simulator's random draws (`np.random.normal(mu, sigma)`,
  drawn from the process-global numpy generator) are modelled by an
  explicit stream `draws : ℕ → ℕ → ℚ` of standard-normal deviates, one per
  (trial, year); `np.random.normal mu sigma` is `mu + sigma * z`.
-/

/-! ## Rounding (Python's banker's rounding, `round(x, n)`) -/

/-- Round to the nearest integer, ties to the even integer, as Python's
built-in `round` does on exact values. -/
def roundHalfEven (x : ℚ) : ℤ :=
  let f : ℤ := ⌊x⌋
  let r : ℚ := x - f
  if r < 1/2 then f
  else if 1/2 < r then f + 1
  else if f % 2 = 0 then f else f + 1

/-- Python `round(x, 0)` (as a rational). -/
def round0 (x : ℚ) : ℚ := (roundHalfEven x : ℚ)

/-- Python `round(x, 2)` (as a rational). -/
def round2 (x : ℚ) : ℚ := (roundHalfEven (100 * x) : ℚ) / 100

/-! ## Fixed-income calculator — `src/calculators/bond_deposit.py` -/

/-- The mapping returned by `bond_deposit` (its five numeric entries). -/
structure BondResult where
  final_value : ℚ
  real_value : ℚ
  nominal_return : ℚ
  real_return : ℚ
  inflation_impact : ℚ
  deriving Repr, DecidableEq

/-- `bond_deposit(principal, interest_rate, years, is_compound,
inflation_rate)` from `src/calculators/bond_deposit.py`.  The three leading
`raise ValueError` validations are modelled as `Except.error` carrying the
source's message. -/
def bond_deposit (principal interest_rate : ℚ) (years : ℤ)
    (is_compound : Bool) (inflation_rate : ℚ) : Except String BondResult :=
  if principal ≤ 0 then .error "本金必須大於 0"
  else if years ≤ 0 then .error "投資年限必須大於 0"
  else if interest_rate < 0 then .error "利率不能為負數"
  else
    let interest_rate_decimal := interest_rate / 100
    let inflation_rate_decimal := inflation_rate / 100
    let final_value :=
      if is_compound then principal * (1 + interest_rate_decimal) ^ years.toNat
      else principal * (1 + interest_rate_decimal * (years : ℚ))
    let real_value := final_value / (1 + inflation_rate_decimal) ^ years.toNat
    let real_return :=
      ((1 + interest_rate_decimal) / (1 + inflation_rate_decimal) - 1) * 100
    .ok ⟨round2 final_value, round2 real_value, round2 interest_rate,
         round2 real_return, round2 (final_value - real_value)⟩

/-- The `final_value` entry of a successful `bond_deposit` call
(0 on the error path; used only to state claims about successful calls). -/
def bondFinalOf (principal interest_rate : ℚ) (years : ℤ)
    (is_compound : Bool) (inflation_rate : ℚ) : ℚ :=
  match bond_deposit principal interest_rate years is_compound inflation_rate with
  | .ok r => r.final_value
  | .error _ => 0

/-- The `real_value` entry of a successful `bond_deposit` call. -/
def bondRealOf (principal interest_rate : ℚ) (years : ℤ)
    (is_compound : Bool) (inflation_rate : ℚ) : ℚ :=
  match bond_deposit principal interest_rate years is_compound inflation_rate with
  | .ok r => r.real_value
  | .error _ => 0

/-- C5 counterexample: on the spec's end-to-end example the code's
`real_value` is 1049990.25, not the claimed 1050594.33 — the gap is 604.08,
far beyond rounding tolerance (`final_value` does match the claim). -/
theorem bond_example_real_value_diverges :
    bondFinalOf 1000000 3 5 true 2 = 1159274.07 ∧
    bondRealOf 1000000 3 5 true 2 ≠ 1050594.33 ∧
    (1050594.33 : ℚ) - bondRealOf 1000000 3 5 true 2 = 604.08 := by
  refine ⟨?_, ?_, ?_⟩ <;>
    · simp only [bondFinalOf, bondRealOf, bond_deposit, Int.reduceToNat]
      norm_num [round2, roundHalfEven]

/-- C5 amended: `bond_deposit(1000000, 3, 5, True, 2)` returns
`final_value = 1159274.07` (as claimed) and `real_value = 1049990.25`
(not 1050594.33). -/
theorem bond_example_values :
    bondFinalOf 1000000 3 5 true 2 = 1159274.07 ∧
    bondRealOf 1000000 3 5 true 2 = 1049990.25 := by
  refine ⟨?_, ?_⟩ <;>
    · simp only [bondFinalOf, bondRealOf, bond_deposit, Int.reduceToNat]
      norm_num [round2, roundHalfEven]

/-! ## Real-estate scenario model — `src/calculators/real_estate.py` -/

/-- The numeric entries of the mapping returned by
`house_investment_analysis` (the presentation-only `scenario` description
string is omitted; the real-valued `annual_return` entry is modelled
separately by `houseAnnualReturn`). -/
structure HouseResult where
  actual_cash_outflow : ℚ
  actual_sale_income : ℚ
  current_value : ℚ
  profit : ℚ
  roi : ℚ
  monthly_payment : ℚ
  loan_years : ℤ
  interest_paid : ℚ
  total_loan_payments : ℚ
  remaining_principal : ℚ
  holding_cost : ℚ
  deriving Repr, DecidableEq

/-- Lines 22–35 of `real_estate.py`: the fixed monthly payment.  Exponents
are integer-valued (`loan_years * 12`), matching Python's `**` on a float
base and an `int` exponent. -/
def house_monthly_payment (house_price down_payment loan_rate : ℚ)
    (loan_years : ℤ) : ℚ :=
  let loan_amount := house_price - down_payment
  let monthly_rate := loan_rate / 100 / 12
  let total_months := loan_years * 12
  if 0 < monthly_rate then
    loan_amount * (monthly_rate * (1 + monthly_rate) ^ total_months) /
      ((1 + monthly_rate) ^ total_months - 1)
  else loan_amount / (total_months : ℚ)

/-- Lines 49–55 of `real_estate.py`: the scenario-A remaining principal
after `simulation_years * 12` months.  The integer subtraction
`total_months - months_in_simulation` is carried out in `ℤ` (cast to `ℚ`),
exactly as Python's `int` subtraction may go negative. -/
def house_remaining_principal_A (house_price down_payment loan_rate : ℚ)
    (loan_years simulation_years : ℤ) : ℚ :=
  let loan_amount := house_price - down_payment
  let monthly_rate := loan_rate / 100 / 12
  let total_months := loan_years * 12
  let months_in_simulation := simulation_years * 12
  if 0 < monthly_rate then
    loan_amount * ((1 + monthly_rate) ^ total_months -
        (1 + monthly_rate) ^ months_in_simulation) /
      ((1 + monthly_rate) ^ total_months - 1)
  else
    loan_amount * ((total_months : ℚ) - (months_in_simulation : ℚ)) /
      (total_months : ℚ)

/-- Line 57 of `real_estate.py`: `principal_paid = loan_amount -
remaining_principal` (scenario A). -/
def house_principal_paid (house_price down_payment loan_rate : ℚ)
    (loan_years simulation_years : ℤ) : ℚ :=
  (house_price - down_payment) -
    house_remaining_principal_A house_price down_payment loan_rate
      loan_years simulation_years

/-- `house_investment_analysis` from `src/calculators/real_estate.py`,
with the source's argument order.  The single `if scenario == "A"` of
line 37 selects scenario A; every other scenario string falls into the
`else` (scenario B) branch, as in the source. -/
def house_investment_analysis (house_price down_payment loan_rate : ℚ)
    (loan_years : ℤ) (appreciation_rate_a appreciation_rate_b annual_cost : ℚ)
    (simulation_years : ℤ) (scenario : String) : HouseResult :=
  let loan_amount := house_price - down_payment
  let total_months := loan_years * 12
  let monthly_payment :=
    house_monthly_payment house_price down_payment loan_rate loan_years
  if scenario = "A" then
    let current_value := house_price * (1 + appreciation_rate_a / 100)
    let months_in_simulation := simulation_years * 12
    let total_loan_payments := monthly_payment * (months_in_simulation : ℚ)
    let remaining_principal :=
      house_remaining_principal_A house_price down_payment loan_rate
        loan_years simulation_years
    let principal_paid := loan_amount - remaining_principal
    let interest_paid := total_loan_payments - principal_paid
    let total_holding_cost := annual_cost * (simulation_years : ℚ)
    let actual_cash_outflow := down_payment + total_loan_payments + total_holding_cost
    let actual_sale_income := current_value - remaining_principal
    let profit := actual_sale_income - actual_cash_outflow
    let roi := if 0 < actual_cash_outflow then profit / actual_cash_outflow * 100 else 0
    ⟨round0 actual_cash_outflow, round0 actual_sale_income, round0 current_value,
     round0 profit, round2 roi, round0 monthly_payment, loan_years,
     round0 interest_paid, round0 total_loan_payments,
     round0 remaining_principal, round0 total_holding_cost⟩
  else
    let current_value := house_price * (1 + appreciation_rate_b / 100)
    let total_loan_payments := monthly_payment * (total_months : ℚ)
    let interest_paid := total_loan_payments - loan_amount
    let total_holding_cost := annual_cost * (loan_years : ℚ)
    let actual_cash_outflow := down_payment + total_loan_payments + total_holding_cost
    let actual_sale_income := current_value
    let remaining_principal : ℚ := 0
    let profit := actual_sale_income - actual_cash_outflow
    let roi := if 0 < actual_cash_outflow then profit / actual_cash_outflow * 100 else 0
    ⟨round0 actual_cash_outflow, round0 actual_sale_income, round0 current_value,
     round0 profit, round2 roi, round0 monthly_payment, loan_years,
     round0 interest_paid, round0 total_loan_payments,
     round0 remaining_principal, round0 total_holding_cost⟩

/-- Lines 41 and 75 of `real_estate.py`: the `annual_return` entry,
`((1 + rate/100) ** (1/horizon) - 1) * 100`, a real-valued fractional
power (kept separate so the rational core stays executable). -/
noncomputable def houseAnnualReturn (appreciation_rate_a appreciation_rate_b : ℚ)
    (loan_years simulation_years : ℤ) (scenario : String) : ℝ :=
  if scenario = "A" then
    (Real.rpow (1 + (appreciation_rate_a : ℝ) / 100) (1 / (simulation_years : ℝ)) - 1) * 100
  else
    (Real.rpow (1 + (appreciation_rate_b : ℝ) / 100) (1 / (loan_years : ℝ)) - 1) * 100

/-- Banker's rounding sends nonnegative rationals to nonnegative values. -/
theorem round0_nonneg {x : ℚ} (hx : 0 ≤ x) : 0 ≤ round0 x := by
  unfold round0 roundHalfEven
  have hf : (0 : ℤ) ≤ ⌊x⌋ := Int.floor_nonneg.2 hx
  dsimp only
  split
  · exact_mod_cast hf
  · split
    · exact_mod_cast Int.le_add_one hf
    · split
      · exact_mod_cast hf
      · exact_mod_cast Int.le_add_one hf

/-- Banker's rounding of zero is zero. -/
theorem round0_zero : round0 0 = 0 := by
  norm_num [round0, roundHalfEven]

/-- C2 counterexample: with `simulation_years = 2 > loan_years = 1` (all the
claim's stated hypotheses hold: positive prices and horizons, `loan_rate = 0`),
scenario A's returned `remaining_principal` is `-1000000 < 0`. -/
theorem house_scenarioA_remaining_negative :
    (house_investment_analysis 1000000 0 0 1 30 50 50000 2 "A").remaining_principal
      = -1000000 ∧
    (house_investment_analysis 1000000 0 0 1 30 50 50000 2 "A").remaining_principal
      < 0 := by
  constructor <;>
    · simp only [house_investment_analysis, house_remaining_principal_A,
        house_monthly_payment]
      norm_num [round0, roundHalfEven]

/-- C2 amended: under the claim's hypotheses strengthened by
`simulation_years ≤ loan_years` (which the code needs; without it the
loan-balance formula goes negative), scenario B returns
`remaining_principal = 0`, scenario A's remaining principal is nonnegative
(both before rounding and as returned), and the internal
`principal_paid + remaining_principal` equals `loan_amount` exactly. -/
theorem house_principal_invariants (hp dp lr : ℚ) (ly sy : ℤ)
    (ara arb ac : ℚ)
    (hhp : 0 < hp) (hdp0 : 0 ≤ dp) (hdp : dp ≤ hp) (hlr : 0 ≤ lr)
    (hly : 0 < ly) (hsy : 0 < sy) (hsl : sy ≤ ly) :
    (house_investment_analysis hp dp lr ly ara arb ac sy "B").remaining_principal
      = 0 ∧
    0 ≤ house_remaining_principal_A hp dp lr ly sy ∧
    0 ≤ (house_investment_analysis hp dp lr ly ara arb ac sy "A").remaining_principal ∧
    house_principal_paid hp dp lr ly sy +
        house_remaining_principal_A hp dp lr ly sy = hp - dp := by
  have hrem : 0 ≤ house_remaining_principal_A hp dp lr ly sy := by
    unfold house_remaining_principal_A
    have hL : 0 ≤ hp - dp := by linarith
    rcases eq_or_lt_of_le hlr with hlr0 | hlrpos
    · rw [if_neg]
      · have hNm : (sy : ℚ) * 12 ≤ (ly : ℚ) * 12 := by
          have : (sy : ℚ) ≤ (ly : ℚ) := by exact_mod_cast hsl
          linarith
        have hN : (0 : ℚ) < (ly : ℚ) * 12 := by
          have : (0 : ℚ) < (ly : ℚ) := by exact_mod_cast hly
          linarith
        refine div_nonneg (mul_nonneg hL ?_) ?_ <;> push_cast <;> linarith
      · rw [← hlr0]; norm_num
    · have hmr : 0 < lr / 100 / 12 := by positivity
      rw [if_pos hmr]
      set mr := lr / 100 / 12 with hmrdef
      have hb : (1 : ℚ) < 1 + mr := by linarith
      have hpow : (1 + mr) ^ (sy * 12) ≤ (1 + mr) ^ (ly * 12) :=
        zpow_le_zpow_right₀ (le_of_lt hb) (by omega)
      have hden : (1 : ℚ) < (1 + mr) ^ (ly * 12) :=
        one_lt_zpow₀ hb (by omega)
      refine div_nonneg (mul_nonneg hL ?_) ?_ <;> linarith
  refine ⟨?_, hrem, ?_, ?_⟩
  · simp only [house_investment_analysis, reduceIte]
    exact round0_zero
  · simp only [house_investment_analysis, reduceIte]
    exact round0_nonneg hrem
  · unfold house_principal_paid; ring

/-- C2 amended, witness: at `house_price = 10000000`, `down_payment =
2000000`, `loan_rate = 2.5`, `loan_years = 20`, `simulation_years = 10`
the amended invariants hold. -/
theorem house_principal_invariants_witness :
    (house_investment_analysis 10000000 2000000 2.5 20 30 50 50000 10 "B").remaining_principal
      = 0 ∧
    0 ≤ house_remaining_principal_A 10000000 2000000 2.5 20 10 ∧
    0 ≤ (house_investment_analysis 10000000 2000000 2.5 20 30 50 50000 10 "A").remaining_principal ∧
    house_principal_paid 10000000 2000000 2.5 20 10 +
        house_remaining_principal_A 10000000 2000000 2.5 20 10 = 10000000 - 2000000 :=
  house_principal_invariants 10000000 2000000 2.5 20 10 30 50 50000
    (by norm_num) (by norm_num) (by norm_num) (by norm_num)
    (by norm_num) (by norm_num) (by norm_num)

/-- C9: with `loan_rate = 0` the guard `monthly_rate > 0` fails, so the
payment is the loan principal divided evenly over `loan_years * 12` months
(both as computed and, rounded, as returned for any scenario), never the
exponential annuity formula. -/
theorem house_zero_rate_monthly_payment (hp dp : ℚ) (ly : ℤ)
    (ara arb ac : ℚ) (sy : ℤ) (s : String) :
    house_monthly_payment hp dp 0 ly = (hp - dp) / ((ly : ℚ) * 12) ∧
    (house_investment_analysis hp dp 0 ly ara arb ac sy s).monthly_payment
      = round0 ((hp - dp) / ((ly : ℚ) * 12)) := by
  have hpay : house_monthly_payment hp dp 0 ly = (hp - dp) / ((ly : ℚ) * 12) := by
    unfold house_monthly_payment
    rw [if_neg (by norm_num)]
    push_cast
    ring
  refine ⟨hpay, ?_⟩
  by_cases hs : s = "A" <;>
    simp only [house_investment_analysis, hs, reduceIte, if_pos, if_neg, hpay]

/-- C10: any scenario string other than exactly `"A"` (including `"a"`,
`"C"`, …) falls into the `else` branch: the function silently returns the
scenario-B (hold-to-maturity) result — every returned metric, including the
real-valued `annual_return`, coincides with the `scenario = "B"` output, and
no validation error path exists in the source. -/
theorem house_non_A_scenario_is_B (hp dp lr : ℚ) (ly : ℤ)
    (ara arb ac : ℚ) (sy : ℤ) (s : String) (hs : s ≠ "A") :
    house_investment_analysis hp dp lr ly ara arb ac sy s =
      house_investment_analysis hp dp lr ly ara arb ac sy "B" ∧
    houseAnnualReturn ara arb ly sy s = houseAnnualReturn ara arb ly sy "B" := by
  constructor <;>
    · simp only [house_investment_analysis, houseAnnualReturn]
      rw [if_neg hs, if_neg (by decide : ¬("B" = "A"))]

/-- C10 witness: the concrete scenario string `"C"` produces exactly the
scenario-B output. -/
theorem house_non_A_scenario_is_B_witness :
    house_investment_analysis 10000000 2000000 2.5 20 30 50 50000 10 "C" =
      house_investment_analysis 10000000 2000000 2.5 20 30 50 50000 10 "B" ∧
    houseAnnualReturn 30 50 20 10 "C" = houseAnnualReturn 30 50 20 10 "B" :=
  house_non_A_scenario_is_B 10000000 2000000 2.5 20 30 50 50000 10 "C"
    (by decide)

/-! ## ETF reinvestment simulator — `src/calculators/etf_regular.py` -/

/-- The loop state of `ETFRegularInvestment` (lines 40–42 of
`etf_regular.py`): held shares, synthetic price (baseline 100), and
accumulated dividend income. -/
structure EtfState where
  current_shares : ℚ
  current_price : ℚ
  total_dividend_income : ℚ
  deriving Repr, DecidableEq

/-- One iteration of the monthly loop (lines 50–66 of `etf_regular.py`):
price growth, dividend accrual, dividend reinvestment (guarded by
`monthly_dividend > 0`), then the monthly contribution purchase (guarded by
`monthly_amount > 0`). -/
def etf_month (monthly_growth_rate monthly_dividend_rate monthly_amount : ℚ)
    (st : EtfState) : EtfState :=
  let current_price := st.current_price * (1 + monthly_growth_rate)
  let monthly_dividend := st.current_shares * current_price * monthly_dividend_rate
  let total_dividend_income := st.total_dividend_income + monthly_dividend
  let shares1 :=
    if 0 < monthly_dividend then st.current_shares + monthly_dividend / current_price
    else st.current_shares
  let shares2 :=
    if 0 < monthly_amount then shares1 + monthly_amount / current_price
    else shares1
  ⟨shares2, current_price, total_dividend_income⟩

/-- The monthly loop, iterated `total_months` times. -/
def etf_iter (monthly_growth_rate monthly_dividend_rate monthly_amount : ℚ) :
    ℕ → EtfState → EtfState
  | 0, st => st
  | k + 1, st =>
      etf_iter monthly_growth_rate monthly_dividend_rate monthly_amount k
        (etf_month monthly_growth_rate monthly_dividend_rate monthly_amount st)

/-- Lines 40–47 of `etf_regular.py`: initial state — shares bought with the
initial amount at the baseline price 100 (guarded by `initial_amount > 0`). -/
def etf_init (initial_amount : ℚ) : EtfState :=
  ⟨if 0 < initial_amount then initial_amount / 100 else 0, 100, 0⟩

/-- The loop state after the full run of `ETFRegularInvestment`
(`total_months = years * 12`; Python's `range` of a negative int is empty,
hence `Int.toNat`). -/
def etf_run (initial_amount monthly_amount dividend_yield price_growth : ℚ)
    (years : ℤ) : EtfState :=
  etf_iter (price_growth / 100 / 12) (dividend_yield / 100 / 12) monthly_amount
    (years * 12).toNat (etf_init initial_amount)

/-- Line 69 of `etf_regular.py`: `final_value = current_shares *
current_price` (before display rounding). -/
def etf_final_value (initial_amount monthly_amount dividend_yield price_growth : ℚ)
    (years : ℤ) : ℚ :=
  (etf_run initial_amount monthly_amount dividend_yield price_growth years).current_shares *
    (etf_run initial_amount monthly_amount dividend_yield price_growth years).current_price

/-- The rational entries of the mapping returned by `ETFRegularInvestment`
(lines 120–129).  The `irr` entry (scipy's float Newton iteration,
lines 86–112) and the `annualized_return` entry (fractional power,
lines 80–84) are not modelled; no claim mentions them. -/
structure EtfResult where
  final_value : ℚ
  total_investment : ℚ
  profit : ℚ
  roi : ℚ
  dividend_income : ℚ
  capital_gain : ℚ
  deriving Repr, DecidableEq

/-- `ETFRegularInvestment` from `src/calculators/etf_regular.py` (its
rational entries, display-rounded as in the source). -/
def ETFRegularInvestment (initial_amount monthly_amount dividend_yield price_growth : ℚ)
    (years : ℤ) : EtfResult :=
  let st := etf_run initial_amount monthly_amount dividend_yield price_growth years
  let final_value := st.current_shares * st.current_price
  let total_investment := initial_amount + monthly_amount * ((years * 12 : ℤ) : ℚ)
  let profit := final_value - total_investment
  let capital_gain := final_value - total_investment - st.total_dividend_income
  let roi := if 0 < total_investment then profit / total_investment * 100 else 0
  ⟨round2 final_value, round2 total_investment, round2 profit, round2 roi,
   round2 st.total_dividend_income, round2 capital_gain⟩

/-- Helper for the ETF analysis: the portfolio-value recursion
`v ↦ v * a + m` (one month: growth-and-dividend factor `a`, contribution
`m`), iterated. -/
def vIter (a m : ℚ) : ℕ → ℚ → ℚ
  | 0, v => v
  | k + 1, v => vIter a m k (v * a + m)

/-- One ETF month keeps the price positive and the share count
nonnegative. -/
theorem etf_month_invariant (g d m : ℚ) (st : EtfState)
    (hp : 0 < st.current_price) (hs : 0 ≤ st.current_shares)
    (hg : 0 < 1 + g) (hm : 0 ≤ m) :
    0 < (etf_month g d m st).current_price ∧
      0 ≤ (etf_month g d m st).current_shares := by
  unfold etf_month
  dsimp only
  have hp' : 0 < st.current_price * (1 + g) := mul_pos hp hg
  refine ⟨hp', ?_⟩
  have h2 : 0 ≤ m / (st.current_price * (1 + g)) := div_nonneg hm hp'.le
  split
  next _ =>
    split
    next hdivpos =>
      have h1 : 0 ≤ st.current_shares * (st.current_price * (1 + g)) * d /
          (st.current_price * (1 + g)) := div_nonneg hdivpos.le hp'.le
      linarith
    next _ => linarith
  next _ =>
    split
    next hdivpos =>
      have h1 : 0 ≤ st.current_shares * (st.current_price * (1 + g)) * d /
          (st.current_price * (1 + g)) := div_nonneg hdivpos.le hp'.le
      linarith
    next _ => exact hs

/-- One ETF month multiplies the portfolio value `shares * price` by
`(1 + g) * (1 + d)` and adds the monthly contribution, however the two
guards resolve. -/
theorem etf_month_value (g d m : ℚ) (st : EtfState)
    (hp : 0 < st.current_price) (hs : 0 ≤ st.current_shares)
    (hg : 0 < 1 + g) (hd : 0 ≤ d) (hm : 0 ≤ m) :
    (etf_month g d m st).current_shares * (etf_month g d m st).current_price =
      st.current_shares * st.current_price * ((1 + g) * (1 + d)) + m := by
  unfold etf_month
  dsimp only
  have hp' : 0 < st.current_price * (1 + g) := mul_pos hp hg
  have hp'0 : st.current_price * (1 + g) ≠ 0 := ne_of_gt hp'
  have hdivnn : 0 ≤ st.current_shares * (st.current_price * (1 + g)) * d := by
    positivity
  split
  next _ =>
    split
    next _ =>
      field_simp
      ring
    next hdivnotpos =>
      have hdiv0 : st.current_shares * (st.current_price * (1 + g)) * d = 0 :=
        le_antisymm (not_lt.1 hdivnotpos) hdivnn
      field_simp
      linear_combination -hdiv0
  next hmnotpos =>
    have hm0 : m = 0 := le_antisymm (not_lt.1 hmnotpos) hm
    split
    next _ =>
      rw [hm0]
      field_simp
      ring
    next hdivnotpos =>
      have hdiv0 : st.current_shares * (st.current_price * (1 + g)) * d = 0 :=
        le_antisymm (not_lt.1 hdivnotpos) hdivnn
      rw [hm0]
      linear_combination -hdiv0

/-- Bridge: the value `shares * price` of the iterated ETF loop follows the
`vIter` recursion. -/
theorem etf_iter_value (g d m : ℚ) (hg : 0 < 1 + g) (hd : 0 ≤ d) (hm : 0 ≤ m) :
    ∀ (k : ℕ) (st : EtfState), 0 < st.current_price → 0 ≤ st.current_shares →
      (etf_iter g d m k st).current_shares * (etf_iter g d m k st).current_price =
        vIter ((1 + g) * (1 + d)) m k (st.current_shares * st.current_price)
  | 0, st, _, _ => rfl
  | k + 1, st, hp, hs => by
      have hinv := etf_month_invariant g d m st hp hs hg hm
      have hval := etf_month_value g d m st hp hs hg hd hm
      simp only [etf_iter, vIter]
      rw [etf_iter_value g d m hg hd hm k (etf_month g d m st) hinv.1 hinv.2, hval]

/-- `vIter` stays nonnegative from a nonnegative start. -/
theorem vIter_nonneg (a m : ℚ) (ha : 0 ≤ a) (hm : 0 ≤ m) :
    ∀ (k : ℕ) (v : ℚ), 0 ≤ v → 0 ≤ vIter a m k v
  | 0, _, hv => hv
  | k + 1, v, hv => by
      simp only [vIter]
      exact vIter_nonneg a m ha hm k _ (by positivity)

/-- `vIter` stays positive from a positive start (or with a positive
contribution). -/
theorem vIter_pos (a m : ℚ) (ha : 0 < a) (hm : 0 ≤ m) :
    ∀ (k : ℕ) (v : ℚ), 0 < v → 0 < vIter a m k v
  | 0, _, hv => hv
  | k + 1, v, hv => by
      simp only [vIter]
      exact vIter_pos a m ha hm k _ (by positivity)

/-- Strict comparison of two `vIter` runs with factors `a1 < a2`, run for at
least one step from starts `v1 ≤ v2` with `v2` positive. -/
theorem vIter_strict (a1 a2 m : ℚ) (ha1 : 0 < a1) (ha : a1 < a2) (hm : 0 ≤ m) :
    ∀ (k : ℕ) (v1 v2 : ℚ), 0 ≤ v1 → v1 ≤ v2 → 0 < v2 →
      vIter a1 m (k + 1) v1 < vIter a2 m (k + 1) v2
  | 0, v1, v2, hv1, h12, hv2 => by
      simp only [vIter]
      have h1 : v1 * a1 ≤ v2 * a1 := mul_le_mul_of_nonneg_right h12 ha1.le
      have h2 : v2 * a1 < v2 * a2 := mul_lt_mul_of_pos_left ha hv2
      linarith
  | k + 1, v1, v2, hv1, h12, hv2 => by
      have h1 : v1 * a1 ≤ v2 * a1 := mul_le_mul_of_nonneg_right h12 ha1.le
      have h2 : v2 * a1 < v2 * a2 := mul_lt_mul_of_pos_left ha hv2
      have hstep : vIter a1 m (k + 1 + 1) v1 = vIter a1 m (k + 1) (v1 * a1 + m) := rfl
      have hstep2 : vIter a2 m (k + 1 + 1) v2 = vIter a2 m (k + 1) (v2 * a2 + m) := rfl
      rw [hstep, hstep2]
      exact vIter_strict a1 a2 m ha1 ha hm k (v1 * a1 + m) (v2 * a2 + m)
        (add_nonneg (mul_nonneg hv1 ha1.le) hm) (by linarith)
        (add_pos_of_pos_of_nonneg (mul_pos hv2 (ha1.trans ha)) hm)

/-- The ETF run's start value `shares * price` equals `initial_amount`, and
the final value follows the `vIter` recursion. -/
theorem etf_final_value_eq_vIter (initial monthly dy g : ℚ) (years : ℤ)
    (hi : 0 ≤ initial) (hm : 0 ≤ monthly) (hd : 0 ≤ dy / 100 / 12)
    (hg : 0 < 1 + g / 100 / 12) :
    etf_final_value initial monthly dy g years =
      vIter ((1 + g / 100 / 12) * (1 + dy / 100 / 12)) monthly
        (years * 12).toNat initial := by
  unfold etf_final_value etf_run
  rw [etf_iter_value (g / 100 / 12) (dy / 100 / 12) monthly hg hd hm
      (years * 12).toNat (etf_init initial) (by norm_num [etf_init]) ?_]
  · congr 1
    unfold etf_init
    dsimp only
    split
    next _ => field_simp
    next hnot =>
      have : initial = 0 := le_antisymm (not_lt.1 hnot) hi
      rw [this]
      ring
  · unfold etf_init
    dsimp only
    split
    next hpos => positivity
    next _ => exact le_refl _

/-- C6 amended: with at least one of `initial_amount`, `monthly_amount`
positive and both price growths above the `-1200 %` pole (where the
synthetic price stays positive), the pre-rounding final value is strictly
increasing in `price_growth`. -/
theorem etf_final_value_strict_mono (initial monthly dy g1 g2 : ℚ)
    (years : ℤ) (hi : 0 ≤ initial) (hm : 0 ≤ monthly) (hd : 0 ≤ dy)
    (hy : 1 ≤ years) (hpos : 0 < initial + monthly)
    (hg1 : -1200 < g1) (hlt : g1 < g2) :
    etf_final_value initial monthly dy g1 years <
      etf_final_value initial monthly dy g2 years := by
  have hd' : 0 ≤ dy / 100 / 12 := by linarith
  have hx1 : 0 < 1 + g1 / 100 / 12 := by linarith
  have hx2 : 0 < 1 + g2 / 100 / 12 := by linarith
  have hc : (1 : ℚ) ≤ 1 + dy / 100 / 12 := by linarith
  have ha1 : 0 < (1 + g1 / 100 / 12) * (1 + dy / 100 / 12) := by positivity
  have haa : (1 + g1 / 100 / 12) * (1 + dy / 100 / 12) <
      (1 + g2 / 100 / 12) * (1 + dy / 100 / 12) := by
    have hx12 : 1 + g1 / 100 / 12 < 1 + g2 / 100 / 12 := by linarith
    nlinarith
  rw [etf_final_value_eq_vIter initial monthly dy g1 years hi hm hd' hx1,
      etf_final_value_eq_vIter initial monthly dy g2 years hi hm hd' hx2]
  obtain ⟨k, hk⟩ : ∃ k, (years * 12).toNat = (k + 1) + 1 :=
    ⟨(years * 12).toNat - 2, by omega⟩
  rw [hk]
  rcases eq_or_lt_of_le hi with hi0 | hipos
  · -- initial = 0, hence monthly > 0: unroll the first month to start at m
    have hm0 : 0 < monthly := by linarith [hpos, hi0]
    rw [← hi0]
    have e1 : ∀ a : ℚ, vIter a monthly (k + 1 + 1) 0 =
        vIter a monthly (k + 1) monthly := by
      intro a
      show vIter a monthly (k + 1) (0 * a + monthly) = _
      rw [zero_mul, zero_add]
    rw [e1, e1]
    exact vIter_strict _ _ monthly ha1 haa hm k monthly monthly hm
      le_rfl hm0
  · exact vIter_strict _ _ monthly ha1 haa hm (k + 1) initial initial
      hi le_rfl hipos

/-- C6 amended, witness at a concrete parameter choice. -/
theorem etf_final_value_strict_mono_witness :
    etf_final_value 100000 10000 2 3 10 < etf_final_value 100000 10000 2 5 10 :=
  etf_final_value_strict_mono 100000 10000 2 3 5 10 (by norm_num) (by norm_num)
    (by norm_num) (by norm_num) (by norm_num) (by norm_num) (by norm_num)

/-- C6 counterexample: three instances of the claim's stated hypotheses
(`initial ≥ 0`, `monthly ≥ 0`, `dividend_yield ≥ 0`, `years > 0`,
`g1 < g2`) where the returned `final_value` fails to strictly increase:
with no money invested the final value is `0` at every growth; a tiny
growth difference is erased by the 2-decimal display rounding of the
returned `final_value`; and below the `-1200 %` pole the even-power price
path reverses the order. -/
theorem ETF_price_growth_mono_counterexample :
    ((0 : ℚ) < 10 ∧ etf_final_value 0 0 0 0 1 = etf_final_value 0 0 0 10 1) ∧
    ((0 : ℚ) < 1 / 10000 ∧
      (ETFRegularInvestment 100 0 0 0 1).final_value =
        (ETFRegularInvestment 100 0 0 (1 / 10000) 1).final_value) ∧
    ((-3600 : ℚ) < -2400 ∧
      etf_final_value 100 0 0 (-2400) 1 < etf_final_value 100 0 0 (-3600) 1) := by
  refine ⟨⟨by norm_num, ?_⟩, ⟨by norm_num, ?_⟩, ⟨by norm_num, ?_⟩⟩ <;>
    norm_num [ETFRegularInvestment, etf_final_value, etf_run, etf_iter,
      etf_month, etf_init, round2, roundHalfEven]

/-! ## Stochastic equity simulator — `src/calculators/stock.py` -/

/-- One Monte-Carlo trial (lines 42–55 of `stock.py`): start at
`initial_amount`; each year add `monthly_amount` (an annual top-up despite
the name), then multiply by `1 + r` where `r = np.random.normal(mu, sigma)`
is modelled as `mu + sigma * draw year` for a standard-normal deviate
`draw year` taken from the (global) random stream. -/
def stock_trial (initial_amount monthly_amount expected_return volatility : ℚ)
    (years : ℕ) (draw : ℕ → ℚ) : ℚ :=
  (List.range years).foldl
    (fun portfolio_value year =>
      (portfolio_value + monthly_amount) *
        (1 + (expected_return / 100 + volatility / 100 * draw year)))
    initial_amount

/-- Lines 42–58 of `stock.py`: the list of the `simulations` trial final
values (`range` of a negative int is empty, hence `Int.toNat`). -/
def stock_final_values (initial_amount monthly_amount expected_return volatility : ℚ)
    (years simulations : ℤ) (draws : ℕ → ℕ → ℚ) : List ℚ :=
  (List.range simulations.toNat).map
    (fun i => stock_trial initial_amount monthly_amount expected_return volatility
      years.toNat (draws i))

/-- `np.mean` on a list of rationals. -/
def np_mean (l : List ℚ) : ℚ := l.sum / (l.length : ℚ)

/-- `np.sort` (ascending).  Insertion sort is extensionally equal to
numpy's sort: both return the `≤`-sorted permutation. -/
def np_sort (l : List ℚ) : List ℚ := l.insertionSort (· ≤ ·)

/-- `np.percentile(sorted, q)` with the default linear-interpolation
definition: index `h = q*(n-1)/100`, result
`a[⌊h⌋] + (h - ⌊h⌋) * (a[⌊h⌋+1] - a[⌊h⌋])` (upper index clamped). -/
def np_percentile (sorted : List ℚ) (q : ℚ) : ℚ :=
  let n := sorted.length
  let h : ℚ := q * ((n : ℚ) - 1) / 100
  let lo : ℕ := (⌊h⌋).toNat
  let hi : ℕ := min (lo + 1) (n - 1)
  sorted.getD lo 0 + (h - (⌊h⌋ : ℚ)) * (sorted.getD hi 0 - sorted.getD lo 0)

/-- Line 62 of `stock.py`: `np.mean(final_values)`. -/
def stock_mean (initial_amount monthly_amount expected_return volatility : ℚ)
    (years simulations : ℤ) (draws : ℕ → ℕ → ℚ) : ℚ :=
  np_mean (stock_final_values initial_amount monthly_amount expected_return
    volatility years simulations draws)

/-- Lines 63–64 of `stock.py`: `np.percentile(final_values_sorted, q)`. -/
def stock_percentile (initial_amount monthly_amount expected_return volatility : ℚ)
    (years simulations : ℤ) (draws : ℕ → ℕ → ℚ) (q : ℚ) : ℚ :=
  np_percentile (np_sort (stock_final_values initial_amount monthly_amount
    expected_return volatility years simulations draws)) q

/-- Line 65 of `stock.py`: `total_investment = initial_amount +
monthly_amount * years`. -/
def stock_total_investment (initial_amount monthly_amount : ℚ) (years : ℤ) : ℚ :=
  initial_amount + monthly_amount * (years : ℚ)

/-- The rational entries of the mapping returned by
`stock_investment_simulation` (lines 72–80): display-rounded mean and
percentiles, and the unrounded total investment.  The three annualized
return entries are real-valued and modelled by `stock_returns`. -/
structure StockResult where
  mean : ℚ
  percentile_5 : ℚ
  percentile_95 : ℚ
  total_investment : ℚ
  deriving Repr, DecidableEq

/-- `stock_investment_simulation` from `src/calculators/stock.py`
(its rational entries). -/
def stock_investment_simulation (initial_amount monthly_amount expected_return
    volatility : ℚ) (years simulations : ℤ) (draws : ℕ → ℕ → ℚ) : StockResult :=
  ⟨round0 (stock_mean initial_amount monthly_amount expected_return volatility
      years simulations draws),
   round0 (stock_percentile initial_amount monthly_amount expected_return
      volatility years simulations draws 5),
   round0 (stock_percentile initial_amount monthly_amount expected_return
      volatility years simulations draws 95),
   stock_total_investment initial_amount monthly_amount years⟩

/-- Lines 68–70 of `stock.py`: `(pow(value / total_investment, 1/years) -
1) * 100`, exactly as the source computes it — with no guard on
`total_investment`.  `none` models the cases where Python's float
arithmetic does not produce a finite real: `years = 0` raises
`ZeroDivisionError` in `1/years`; `total = 0` makes `value/total` a
`nan`/`inf`; a negative ratio under a non-integral exponent `1/years`
gives `nan`. -/
noncomputable def pyAnnualized (value total : ℚ) (years : ℤ) : Option ℝ :=
  if years = 0 then none
  else if total = 0 then none
  else if value / total < 0 ∧ years ≠ 1 ∧ years ≠ -1 then none
  else some ((Real.rpow ((value / total : ℚ) : ℝ) (1 / (years : ℝ)) - 1) * 100)

/-- The three annualized-return entries of `stock_investment_simulation`
(lines 68–70 and 77–79 of `stock.py`; the display rounding `round(x, 2)`
maps `nan` to `nan`, so it does not affect `none`). -/
structure StockReturns where
  mean_return : Option ℝ
  worst_case : Option ℝ
  best_case : Option ℝ

/-- The annualized-return entries, computed from the unrounded mean and
percentiles as in the source. -/
noncomputable def stock_returns (initial_amount monthly_amount expected_return
    volatility : ℚ) (years simulations : ℤ) (draws : ℕ → ℕ → ℚ) : StockReturns :=
  ⟨pyAnnualized (stock_mean initial_amount monthly_amount expected_return
      volatility years simulations draws)
      (stock_total_investment initial_amount monthly_amount years) years,
   pyAnnualized (stock_percentile initial_amount monthly_amount expected_return
      volatility years simulations draws 5)
      (stock_total_investment initial_amount monthly_amount years) years,
   pyAnnualized (stock_percentile initial_amount monthly_amount expected_return
      volatility years simulations draws 95)
      (stock_total_investment initial_amount monthly_amount years) years⟩

/-- C1: the code has no `total_investment ≤ 0` guard — at
`initial_amount = 0`, `monthly_amount = 0` (so `total_investment = 0`,
the only way the claim's hypothesis holds for nonnegative amounts) every
annualized-return entry is the `0/0` non-finite value, not the claimed
`0`, whatever the random draws. -/
theorem stock_zero_total_investment_not_zero (draws : ℕ → ℕ → ℚ) :
    stock_total_investment 0 0 1 = 0 ∧
    (stock_returns 0 0 5 0 1 1 draws).mean_return = none ∧
    (stock_returns 0 0 5 0 1 1 draws).worst_case = none ∧
    (stock_returns 0 0 5 0 1 1 draws).best_case = none ∧
    (stock_returns 0 0 5 0 1 1 draws).mean_return ≠ some 0 := by
  have htot : stock_total_investment 0 0 1 = 0 := by
    norm_num [stock_total_investment]
  refine ⟨htot, ?_, ?_, ?_, ?_⟩ <;>
    simp [stock_returns, pyAnnualized, htot]

/-- The deterministic compounding described by the spec for `volatility = 0`:
each year add `monthly_amount`, then multiply by `1 + expected_return/100`
(stated from the claim's words, to be compared with the code). -/
def stock_deterministic_final (initial_amount monthly_amount expected_return : ℚ)
    (years : ℕ) : ℚ :=
  (List.range years).foldl
    (fun v _ => (v + monthly_amount) * (1 + expected_return / 100))
    initial_amount

/-- With `volatility = 0` a trial ignores its draws and equals the
deterministic compounding. -/
theorem stock_trial_zero_volatility (initial_amount monthly_amount expected_return : ℚ)
    (years : ℕ) (draw : ℕ → ℚ) :
    stock_trial initial_amount monthly_amount expected_return 0 years draw =
      stock_deterministic_final initial_amount monthly_amount expected_return years := by
  unfold stock_trial stock_deterministic_final
  congr 1
  funext v y
  norm_num

/-- Sum of a list all of whose entries equal `c`. -/
theorem list_sum_of_all_eq {l : List ℚ} {c : ℚ} (h : ∀ x ∈ l, x = c) :
    l.sum = c * (l.length : ℚ) := by
  induction l with
  | nil => simp
  | cons a t ih =>
      have ha : a = c := h a (List.mem_cons_self a t)
      have ht : ∀ x ∈ t, x = c := fun x hx => h x (List.mem_cons_of_mem a hx)
      rw [List.sum_cons, ih ht, ha, List.length_cons]
      push_cast
      ring

/-- `np.mean` of a nonempty constant list. -/
theorem np_mean_const {l : List ℚ} {c : ℚ} (h : ∀ x ∈ l, x = c)
    (hne : l ≠ []) : np_mean l = c := by
  unfold np_mean
  rw [list_sum_of_all_eq h]
  have hn : (l.length : ℚ) ≠ 0 := by
    have : l.length ≠ 0 := fun h0 => hne (List.length_eq_zero.1 h0)
    exact_mod_cast this
  field_simp

/-- `getD` on a constant list at an in-range index. -/
theorem getD_of_all_eq {l : List ℚ} {c : ℚ} (h : ∀ x ∈ l, x = c)
    {i : ℕ} (hi : i < l.length) : l.getD i 0 = c := by
  rw [List.getD_eq_getElem l 0 hi]
  exact h _ (List.getElem_mem hi)

/-- `np.percentile` of a nonempty constant list, for any `0 ≤ q ≤ 100`. -/
theorem np_percentile_const {l : List ℚ} {c : ℚ} (h : ∀ x ∈ l, x = c)
    (hne : l ≠ []) {q : ℚ} (hq0 : 0 ≤ q) (hq1 : q ≤ 100) :
    np_percentile l q = c := by
  unfold np_percentile
  dsimp only
  have hn : 1 ≤ l.length := by
    cases l with
    | nil => exact absurd rfl hne
    | cons a t => simp [Nat.succ_le_succ]
  set n := l.length with hndef
  have hh0 : (0 : ℚ) ≤ q * ((n : ℚ) - 1) / 100 := by
    have : (1 : ℚ) ≤ (n : ℚ) := by exact_mod_cast hn
    have hnn : (0 : ℚ) ≤ (n : ℚ) - 1 := by linarith
    positivity
  have hhle : q * ((n : ℚ) - 1) / 100 ≤ (n : ℚ) - 1 := by
    have : (1 : ℚ) ≤ (n : ℚ) := by exact_mod_cast hn
    have hnn : (0 : ℚ) ≤ (n : ℚ) - 1 := by linarith
    rw [div_le_iff₀ (by norm_num : (0:ℚ) < 100)]
    nlinarith
  have hfl0 : 0 ≤ ⌊q * ((n : ℚ) - 1) / 100⌋ := Int.floor_nonneg.2 hh0
  have hfl : ⌊q * ((n : ℚ) - 1) / 100⌋ ≤ (n : ℤ) - 1 := by
    have : ((n : ℚ) - 1) = ((n : ℤ) - 1 : ℤ) := by push_cast; ring
    calc ⌊q * ((n : ℚ) - 1) / 100⌋ ≤ ⌊((n : ℤ) - 1 : ℤ) * (1 : ℚ)⌋ := by
          apply Int.floor_le_floor
          rw [this] at hhle
          simpa using hhle
      _ = (n : ℤ) - 1 := by
          rw [mul_one, Int.floor_intCast]
  have hlo : (⌊q * ((n : ℚ) - 1) / 100⌋).toNat < n := by omega
  have hhi : min ((⌊q * ((n : ℚ) - 1) / 100⌋).toNat + 1) (n - 1) < n := by omega
  rw [getD_of_all_eq h hlo, getD_of_all_eq h hhi]
  ring

/-- C7: with `volatility = 0` every trial final value equals the
deterministic compounding of `expected_return` (add the annual top-up,
then multiply by `1 + expected_return/100`, each year), so the reported
mean, 5th and 95th percentiles are all exactly that value. -/
theorem stock_zero_volatility_deterministic (initial_amount monthly_amount
    expected_return : ℚ) (years simulations : ℤ) (draws : ℕ → ℕ → ℚ)
    (hsim : 1 ≤ simulations) :
    (∀ v ∈ stock_final_values initial_amount monthly_amount expected_return 0
        years simulations draws,
      v = stock_deterministic_final initial_amount monthly_amount
            expected_return years.toNat) ∧
    stock_mean initial_amount monthly_amount expected_return 0 years
        simulations draws =
      stock_deterministic_final initial_amount monthly_amount expected_return
        years.toNat ∧
    stock_percentile initial_amount monthly_amount expected_return 0 years
        simulations draws 5 =
      stock_deterministic_final initial_amount monthly_amount expected_return
        years.toNat ∧
    stock_percentile initial_amount monthly_amount expected_return 0 years
        simulations draws 95 =
      stock_deterministic_final initial_amount monthly_amount expected_return
        years.toNat := by
  set det := stock_deterministic_final initial_amount monthly_amount
    expected_return years.toNat with hdet
  have hall : ∀ v ∈ stock_final_values initial_amount monthly_amount
      expected_return 0 years simulations draws, v = det := by
    intro v hv
    unfold stock_final_values at hv
    obtain ⟨i, _, rfl⟩ := List.mem_map.1 hv
    exact stock_trial_zero_volatility initial_amount monthly_amount
      expected_return years.toNat (draws i)
  have hlen : (stock_final_values initial_amount monthly_amount expected_return 0
      years simulations draws).length = simulations.toNat := by
    unfold stock_final_values
    rw [List.length_map, List.length_range]
  have hne : stock_final_values initial_amount monthly_amount expected_return 0
      years simulations draws ≠ [] := by
    intro h0
    rw [h0] at hlen
    simp only [List.length_nil] at hlen
    omega
  have hperm := List.perm_insertionSort (· ≤ · : ℚ → ℚ → Prop)
    (stock_final_values initial_amount monthly_amount expected_return 0
      years simulations draws)
  have hall' : ∀ v ∈ np_sort (stock_final_values initial_amount monthly_amount
      expected_return 0 years simulations draws), v = det := by
    intro v hv
    unfold np_sort at hv
    exact hall v (hperm.mem_iff.1 hv)
  have hne' : np_sort (stock_final_values initial_amount monthly_amount
      expected_return 0 years simulations draws) ≠ [] := by
    intro h0
    unfold np_sort at h0
    exact hne (List.Perm.eq_nil (h0 ▸ hperm.symm))
  refine ⟨hall, ?_, ?_, ?_⟩
  · exact np_mean_const hall hne
  · exact np_percentile_const hall' hne' (by norm_num) (by norm_num)
  · exact np_percentile_const hall' hne' (by norm_num) (by norm_num)

/-- C7 witness: concrete run with 3 trials over 2 years at 10 % expected
return and zero volatility (arbitrary draw stream). -/
theorem stock_zero_volatility_deterministic_witness :
    (∀ v ∈ stock_final_values 1000 100 10 0 2 3 (fun i y => (i : ℚ) + (y : ℚ)),
      v = stock_deterministic_final 1000 100 10 2) ∧
    stock_mean 1000 100 10 0 2 3 (fun i y => (i : ℚ) + (y : ℚ)) =
      stock_deterministic_final 1000 100 10 2 ∧
    stock_percentile 1000 100 10 0 2 3 (fun i y => (i : ℚ) + (y : ℚ)) 5 =
      stock_deterministic_final 1000 100 10 2 ∧
    stock_percentile 1000 100 10 0 2 3 (fun i y => (i : ℚ) + (y : ℚ)) 95 =
      stock_deterministic_final 1000 100 10 2 :=
  stock_zero_volatility_deterministic 1000 100 10 2 3
    (fun i y => (i : ℚ) + (y : ℚ)) (by norm_num)

/-- A trial depends only on the draws it actually consumes (years
`0, …, years-1`). -/
theorem stock_trial_congr (initial_amount monthly_amount expected_return
    volatility : ℚ) (years : ℕ) (d1 d2 : ℕ → ℚ)
    (h : ∀ k < years, d1 k = d2 k) :
    stock_trial initial_amount monthly_amount expected_return volatility years d1 =
      stock_trial initial_amount monthly_amount expected_return volatility years d2 := by
  unfold stock_trial
  induction years with
  | zero => rfl
  | succ n ih =>
      rw [List.range_succ, List.foldl_append, List.foldl_append]
      rw [ih (fun k hk => h k (Nat.lt_succ_of_lt hk))]
      simp only [List.foldl_cons, List.foldl_nil]
      rw [h n (Nat.lt_succ_self n)]

/-- C8 (the true half): the simulator is a deterministic function of the
consumed draw stream — two runs whose random sources produce the same
deviates for every consumed (trial, year) index give bit-identical trial
lists, mean, percentiles and result mapping. -/
theorem stock_same_draws_reproducible (initial_amount monthly_amount
    expected_return volatility : ℚ) (years simulations : ℤ)
    (d1 d2 : ℕ → ℕ → ℚ)
    (h : ∀ i < simulations.toNat, ∀ y < years.toNat, d1 i y = d2 i y) :
    stock_final_values initial_amount monthly_amount expected_return volatility
        years simulations d1 =
      stock_final_values initial_amount monthly_amount expected_return volatility
        years simulations d2 ∧
    stock_mean initial_amount monthly_amount expected_return volatility years
        simulations d1 =
      stock_mean initial_amount monthly_amount expected_return volatility years
        simulations d2 ∧
    stock_percentile initial_amount monthly_amount expected_return volatility
        years simulations d1 5 =
      stock_percentile initial_amount monthly_amount expected_return volatility
        years simulations d2 5 ∧
    stock_percentile initial_amount monthly_amount expected_return volatility
        years simulations d1 95 =
      stock_percentile initial_amount monthly_amount expected_return volatility
        years simulations d2 95 ∧
    stock_investment_simulation initial_amount monthly_amount expected_return
        volatility years simulations d1 =
      stock_investment_simulation initial_amount monthly_amount expected_return
        volatility years simulations d2 := by
  have hfv : stock_final_values initial_amount monthly_amount expected_return
      volatility years simulations d1 =
      stock_final_values initial_amount monthly_amount expected_return
        volatility years simulations d2 := by
    unfold stock_final_values
    apply List.map_congr_left
    intro i hi
    exact stock_trial_congr initial_amount monthly_amount expected_return
      volatility years.toNat (d1 i) (d2 i) (h i (List.mem_range.1 hi))
  refine ⟨hfv, ?_, ?_, ?_, ?_⟩ <;>
    simp only [stock_mean, stock_percentile, stock_investment_simulation, hfv]

/-- C8 witness: two visibly different random sources that agree on the
consumed draws (3 trials × 2 years) produce identical outputs. -/
theorem stock_same_draws_reproducible_witness :
    stock_final_values 100000 10000 5 10 2 3 (fun i y => (i : ℚ) * 10 + (y : ℚ))
      = stock_final_values 100000 10000 5 10 2 3
        (fun i y => if i < 3 ∧ y < 2 then (i : ℚ) * 10 + (y : ℚ) else 999) ∧
    stock_mean 100000 10000 5 10 2 3 (fun i y => (i : ℚ) * 10 + (y : ℚ))
      = stock_mean 100000 10000 5 10 2 3
        (fun i y => if i < 3 ∧ y < 2 then (i : ℚ) * 10 + (y : ℚ) else 999) ∧
    stock_percentile 100000 10000 5 10 2 3 (fun i y => (i : ℚ) * 10 + (y : ℚ)) 5
      = stock_percentile 100000 10000 5 10 2 3
        (fun i y => if i < 3 ∧ y < 2 then (i : ℚ) * 10 + (y : ℚ) else 999) 5 ∧
    stock_percentile 100000 10000 5 10 2 3 (fun i y => (i : ℚ) * 10 + (y : ℚ)) 95
      = stock_percentile 100000 10000 5 10 2 3
        (fun i y => if i < 3 ∧ y < 2 then (i : ℚ) * 10 + (y : ℚ) else 999) 95 ∧
    stock_investment_simulation 100000 10000 5 10 2 3
        (fun i y => (i : ℚ) * 10 + (y : ℚ))
      = stock_investment_simulation 100000 10000 5 10 2 3
        (fun i y => if i < 3 ∧ y < 2 then (i : ℚ) * 10 + (y : ℚ) else 999) :=
  stock_same_draws_reproducible 100000 10000 5 10 2 3
    (fun i y => (i : ℚ) * 10 + (y : ℚ))
    (fun i y => if i < 3 ∧ y < 2 then (i : ℚ) * 10 + (y : ℚ) else 999)
    (by
      intro i hi y hy
      have hi3 : i < 3 := by omega
      have hy2 : y < 2 := by omega
      dsimp only
      rw [if_pos ⟨hi3, hy2⟩])

/-! ## Request models and dispatcher — the Pydantic model module and
`src/routes.py` -/

/-- The `InvestmentType` enumeration of the model module: five accepted
values, of which the dispatcher handles only four. -/
inductive InvestmentType where
  | real_estate
  | etf_regular
  | stock
  | mutual_fund
  | bond_deposit
  deriving Repr, DecidableEq

/-- `RealEstateRequest` (typed fields; Pydantic guarantees presence and
type, with no range constraints). -/
structure RealEstateRequest where
  house_price : ℚ
  down_payment : ℚ
  loan_rate : ℚ
  loan_years : ℤ
  appreciation_rate_a : ℚ
  appreciation_rate_b : ℚ
  annual_cost : ℚ
  simulation_years : ℤ
  scenario : String
  deriving Repr, DecidableEq

/-- `ETFRegularRequest`. -/
structure ETFRegularRequest where
  initial_amount : ℚ
  monthly_amount : ℚ
  dividend_yield : ℚ
  price_growth : ℚ
  years : ℤ
  deriving Repr, DecidableEq

/-- `StockRequest`. -/
structure StockRequest where
  initial_amount : ℚ
  monthly_amount : ℚ
  expected_return : ℚ
  volatility : ℚ
  years : ℤ
  simulations : ℤ
  deriving Repr, DecidableEq

/-- `MutualFundRequest` (accepted by the request model, unhandled by the
dispatcher). -/
structure MutualFundRequest where
  initial_amount : ℚ
  annual_return : ℚ
  years : ℤ
  deriving Repr, DecidableEq

/-- `BondDepositRequest`. -/
structure BondDepositRequest where
  principal : ℚ
  interest_rate : ℚ
  years : ℤ
  is_compound : Bool
  inflation_rate : ℚ
  deriving Repr, DecidableEq

/-- The `parameters` union of `SimulationRequest`. -/
inductive RequestParameters where
  | realEstate (p : RealEstateRequest)
  | etfRegular (p : ETFRegularRequest)
  | stockReq (p : StockRequest)
  | mutualFund (p : MutualFundRequest)
  | bondDeposit (p : BondDepositRequest)
  deriving Repr, DecidableEq

/-- The result mapping produced by a successful dispatch (one per
calculator). -/
inductive ResultPayload where
  | house (r : HouseResult)
  | etf (r : EtfResult)
  | stockRes (r : StockResult)
  | bond (r : BondResult)
  deriving Repr, DecidableEq

/-- A Python exception escaping the dispatch body: a calculator's
`ValueError`, the `HTTPException(400, …)` raised for an unsupported type
(line 99 of `routes.py`), or the `AttributeError` from accessing a field
of a mismatched parameters model. -/
inductive PyError where
  | valueError (msg : String)
  | httpException (status : ℕ) (detail : String)
  | attributeError
  deriving Repr, DecidableEq

/-- `str(e)` for the exceptions above (starlette's `HTTPException.__str__`
is `f"{status_code}: {detail}"`). -/
def pyErrorStr : PyError → String
  | .valueError m => m
  | .httpException c d => toString c ++ ": " ++ d
  | .attributeError => "AttributeError"

/-- The `if/elif/else` dispatch of `calculate_investment` (lines 53–99 of
`routes.py`): route the request to the matching calculator; the `else`
branch raises `HTTPException(400, "不支援的投資類型")`.  The Monte-Carlo
draw stream threads the ambient global numpy generator. -/
def dispatch (draws : ℕ → ℕ → ℚ) :
    InvestmentType → RequestParameters → Except PyError ResultPayload
  | .real_estate, .realEstate p =>
      .ok (.house (house_investment_analysis p.house_price p.down_payment
        p.loan_rate p.loan_years p.appreciation_rate_a p.appreciation_rate_b
        p.annual_cost p.simulation_years p.scenario))
  | .real_estate, _ => .error .attributeError
  | .etf_regular, .etfRegular p =>
      .ok (.etf (ETFRegularInvestment p.initial_amount p.monthly_amount
        p.dividend_yield p.price_growth p.years))
  | .etf_regular, _ => .error .attributeError
  | .stock, .stockReq p =>
      .ok (.stockRes (stock_investment_simulation p.initial_amount
        p.monthly_amount p.expected_return p.volatility p.years p.simulations
        draws))
  | .stock, _ => .error .attributeError
  | .bond_deposit, .bondDeposit p =>
      match bond_deposit p.principal p.interest_rate p.years p.is_compound
        p.inflation_rate with
      | .ok r => .ok (.bond r)
      | .error m => .error (.valueError m)
  | .bond_deposit, _ => .error .attributeError
  | .mutual_fund, _ => .error (.httpException 400 "不支援的投資類型")

/-- The observable outcome of `calculate_investment`: a 200 response with
the result mapping (the persisted-record wrapper is plumbing outside the
engine), or an HTTP error. -/
inductive DispatchResult where
  | ok (r : ResultPayload)
  | httpError (status : ℕ) (detail : String)
  deriving Repr, DecidableEq

/-- `calculate_investment` of `src/routes.py`: the whole dispatch body sits
in a `try:` whose `except Exception as e:` (lines 130–131) re-raises
*every* exception — the 400 `HTTPException` included, since it subclasses
`Exception` — as `HTTPException(500, "計算失敗: " + str(e))`. -/
def calculate_investment (draws : ℕ → ℕ → ℚ) (t : InvestmentType)
    (p : RequestParameters) : DispatchResult :=
  match dispatch draws t p with
  | .ok r => .ok r
  | .error e => .httpError 500 ("計算失敗: " ++ pyErrorStr e)

/-- Whether a response is a 4xx client/validation error. -/
def isClientError4xx : DispatchResult → Bool
  | .httpError c _ => decide (400 ≤ c) && decide (c < 500)
  | .ok _ => false

/-- C3 counterexample: a `mutual_fund` request (a value the enumeration
accepts but no branch handles) does reach the descriptive
"不支援的投資類型" message, but the client receives HTTP **500** — the
intended 400 validation error is swallowed by the blanket
`except Exception` and re-wrapped as a computation failure, so the failure
is not a 4xx validation error. -/
theorem dispatch_unsupported_type_counterexample :
    calculate_investment (fun _ _ => 0) .mutual_fund
        (.mutualFund ⟨100000, 8, 10⟩) =
      .httpError 500 "計算失敗: 400: 不支援的投資類型" ∧
    isClientError4xx (calculate_investment (fun _ _ => 0) .mutual_fund
        (.mutualFund ⟨100000, 8, 10⟩)) = false := by
  constructor
  · rfl
  · rfl

/-- C3 amended: for every parameters value, an investment type outside the
four handled ones (i.e. `mutual_fund`) never silently dispatches to a
default model: the dispatcher raises the descriptive
`HTTPException(400, "不支援的投資類型")`, which the handler's blanket
`except Exception` converts, so the caller observes
`HTTPException(500, "計算失敗: 400: 不支援的投資類型")` rather than a 4xx
validation error. -/
theorem dispatch_unsupported_type_fails (t : InvestmentType)
    (h1 : t ≠ .real_estate) (h2 : t ≠ .etf_regular) (h3 : t ≠ .stock)
    (h4 : t ≠ .bond_deposit) (p : RequestParameters) (draws : ℕ → ℕ → ℚ) :
    calculate_investment draws t p =
      .httpError 500 "計算失敗: 400: 不支援的投資類型" := by
  cases t with
  | real_estate => exact absurd rfl h1
  | etf_regular => exact absurd rfl h2
  | stock => exact absurd rfl h3
  | bond_deposit => exact absurd rfl h4
  | mutual_fund => cases p <;> rfl

/-- C3 amended, witness: the `mutual_fund` member of the enumeration. -/
theorem dispatch_unsupported_type_fails_witness :
    calculate_investment (fun _ _ => 1) .mutual_fund
        (.mutualFund ⟨50000, 6, 5⟩) =
      .httpError 500 "計算失敗: 400: 不支援的投資類型" :=
  dispatch_unsupported_type_fails .mutual_fund (by decide) (by decide)
    (by decide) (by decide) (.mutualFund ⟨50000, 6, 5⟩) (fun _ _ => 1)

/-- C4 counterexample: a bond request whose `principal = -1` violates the
domain-range rule; the calculator raises the descriptive `ValueError`, but
the transport layer returns HTTP **500** (wrapping the message), not a 422
field-level validation response. -/
theorem bond_validation_returns_500_counterexample :
    calculate_investment (fun _ _ => 0) .bond_deposit
        (.bondDeposit ⟨-1, 3, 5, true, 2⟩) =
      .httpError 500 "計算失敗: 本金必須大於 0" ∧
    isClientError4xx (calculate_investment (fun _ _ => 0) .bond_deposit
        (.bondDeposit ⟨-1, 3, 5, true, 2⟩)) = false := by
  have h : calculate_investment (fun _ _ => 0) .bond_deposit
      (.bondDeposit ⟨-1, 3, 5, true, 2⟩) =
      .httpError 500 "計算失敗: 本金必須大於 0" := by
    simp only [calculate_investment, dispatch, bond_deposit]
    norm_num [pyErrorStr]
    decide
  refine ⟨h, ?_⟩
  rw [h]
  rfl

/-- C4 amended: every domain-range violation of the bond calculator
(`principal ≤ 0`, `years ≤ 0`, or `interest_rate < 0`, checked in that
order) surfaces as HTTP 500 with the descriptive validation message
embedded in the detail — never as the claimed 422 (which only the
request-model format validation produces). -/
theorem bond_domain_validation_returns_500 (principal interest_rate : ℚ)
    (years : ℤ) (is_compound : Bool) (inflation_rate : ℚ)
    (draws : ℕ → ℕ → ℚ) :
    (principal ≤ 0 →
      calculate_investment draws .bond_deposit
          (.bondDeposit ⟨principal, interest_rate, years, is_compound,
            inflation_rate⟩) =
        .httpError 500 "計算失敗: 本金必須大於 0") ∧
    (0 < principal → years ≤ 0 →
      calculate_investment draws .bond_deposit
          (.bondDeposit ⟨principal, interest_rate, years, is_compound,
            inflation_rate⟩) =
        .httpError 500 "計算失敗: 投資年限必須大於 0") ∧
    (0 < principal → 0 < years → interest_rate < 0 →
      calculate_investment draws .bond_deposit
          (.bondDeposit ⟨principal, interest_rate, years, is_compound,
            inflation_rate⟩) =
        .httpError 500 "計算失敗: 利率不能為負數") := by
  refine ⟨?_, ?_, ?_⟩
  · intro hp
    simp only [calculate_investment, dispatch, bond_deposit]
    rw [if_pos hp]
    decide
  · intro hp hy
    simp only [calculate_investment, dispatch, bond_deposit]
    rw [if_neg (not_le.2 hp), if_pos hy]
    decide
  · intro hp hy hr
    simp only [calculate_investment, dispatch, bond_deposit]
    rw [if_neg (not_le.2 hp), if_neg (not_le.2 hy), if_pos hr]
    decide

/-- C4 amended, witness: `principal = -1` yields the 500 response with the
principal validation message. -/
theorem bond_domain_validation_returns_500_witness :
    calculate_investment (fun _ _ => 1) .bond_deposit
        (.bondDeposit ⟨-1, 3, 5, true, 2⟩) =
      .httpError 500 "計算失敗: 本金必須大於 0" :=
  (bond_domain_validation_returns_500 (-1) 3 5 true 2 (fun _ _ => 1)).1
    (by norm_num)
